import Mathlib

/-!
# Verification of the evm-benchmarks orchestration core

Shallow embedding of the benchmark orchestration engine of the
evm-benchmarks repository: backend selection (src/runner.rs,
determine_evms), the benchmark catalog (src/benchmarks.rs,
get_evm_benchmarks), the timing-tool result handling
(src/runner.rs, run_single_benchmark and the HyperfineRun record),
the orchestration sweep (src/runner.rs, run_benchmarks), the
per-run executors (src/evm.rs execute_revm / execute_guillotine,
src/evms/revm.rs RevmExecutor, src/evms/guillotine.rs
GuillotineExecutor) and the relative-performance report
(src/display.rs, show_results).

Conventions of the embedding:
* Rust f64 timing statistics are modelled as rationals.
* Byte sequences are lists of naturals below 256, produced by the
  hex decoder.
* Fallible Rust functions returning anyhow Result are modelled as
  Except String.
* External effects (the revm transact_commit call, the guillotine
  FFI transact, the hyperfine subprocess) are modelled as explicit
  function parameters (oracles): the code under verification never
  inspects their internals, it only branches on their results,
  exactly as the Rust code does.
* Rust std HashMap has an unspecified, per-process-randomised
  iteration order.  A HashMap is therefore modelled by its list of
  entries in insertion order (keys are distinct in every use in
  this code base), and an enumeration of the map is any
  permutation of that entry list.
-/

namespace EvmBench

/-! ## Hex codec (model of the hex crate used by src/evm.rs) -/

/-- Value of one hexadecimal digit, as in hex::decode. -/
def hexDigitVal? (c : Char) : Option Nat :=
  if '0' ≤ c ∧ c ≤ '9' then some (c.toNat - '0'.toNat)
  else if 'a' ≤ c ∧ c ≤ 'f' then some (c.toNat - 'a'.toNat + 10)
  else if 'A' ≤ c ∧ c ≤ 'F' then some (c.toNat - 'A'.toNat + 10)
  else none

/-- Model of hex::decode over the character list: two digits per byte,
an odd number of digits or a non-hex character is an error. -/
def hexDecodeChars : List Char → Except String (List Nat)
  | [] => .ok []
  | [_] => .error "Odd number of digits"
  | c1 :: c2 :: rest =>
    match hexDigitVal? c1, hexDigitVal? c2 with
    | some hi, some lo =>
      match hexDecodeChars rest with
      | .ok bs => .ok ((16 * hi + lo) :: bs)
      | .error e => .error e
    | _, _ => .error "Invalid character"

/-- Model of hex::decode on a string. -/
def hexDecode (s : String) : Except String (List Nat) :=
  hexDecodeChars s.data

/-- Lower-case hexadecimal digit character, as in hex::encode. -/
def hexDigitChar (n : Nat) : Char :=
  if n < 10 then Char.ofNat ('0'.toNat + n) else Char.ofNat ('a'.toNat + (n - 10))

/-- Model of hex::encode: two lower-case digits per byte. -/
def hexEncode (bs : List Nat) : String :=
  ((bs.map fun b => [hexDigitChar (b / 16 % 16), hexDigitChar (b % 16)]).flatten).asString

/-- Model of str::strip_prefix("0x").unwrap_or(s) as used in src/evm.rs:
drops a literal 0x prefix, leaves any other string unchanged. -/
def strip0x (s : String) : String :=
  match s.data with
  | '0' :: 'x' :: rest => rest.asString
  | _ => s

/-! ## String split and trim (models of Rust str::split and str::trim) -/

/-- Helper of rustSplit: accumulates the current field (reversed). -/
def splitCharAux (sep : Char) : List Char → List Char → List (List Char)
  | [], acc => [acc.reverse]
  | c :: cs, acc =>
    if c = sep then acc.reverse :: splitCharAux sep cs []
    else splitCharAux sep cs (c :: acc)

/-- Model of Rust str::split(sep): fields between separators, empty
fields preserved. -/
def rustSplit (sep : Char) (s : String) : List String :=
  (splitCharAux sep s.data []).map List.asString

/-- Model of Rust str::trim: removes leading and trailing whitespace. -/
def rustTrim (s : String) : String :=
  (((s.data.dropWhile Char.isWhitespace).reverse.dropWhile Char.isWhitespace).reverse).asString

/-! ## Backend selection (src/runner.rs, determine_evms)

The two environment probes of the geth availability check
(which::which("evm") succeeding, and the file
evms/go-ethereum/build/bin/evm existing) are passed in as booleans:
they are reads of the ambient environment, not logic of this
program. -/

/-- Model of determine_evms (src/runner.rs lines 112-142).  With the
all flag: revm, then geth when available, then guillotine.  With a
comma-separated list: split on commas and trim each field.  With a
single backend: that backend alone.  Otherwise the default revm. -/
def determine_evms (evm evms : Option String) (all : Bool)
    (evmBinaryOnPath gethBuildEvmExists : Bool) : Except String (List String) :=
  if all then
    .ok (["revm"] ++ (if evmBinaryOnPath || gethBuildEvmExists then ["geth"] else [])
      ++ ["guillotine"])
  else
    match evms with
    | some evmsList => .ok ((rustSplit ',' evmsList).map rustTrim)
    | none =>
      match evm with
      | some singleEvm => .ok [singleEvm]
      | none => .ok ["revm"]

/-! ## Benchmark catalog (src/benchmarks.rs) -/

/-- Model of compiler::CompiledContract. -/
structure CompiledContract where
  name : String
  bytecode : String
  path : String
deriving DecidableEq, Repr

/-- Model of benchmarks::Benchmark. -/
structure Benchmark where
  name : String
  description : String
  category : String
  bench_type : String
  bytecode : String
  calldata : String
  gas : Nat
deriving DecidableEq, Repr

/-- Model of get_evm_benchmarks (src/benchmarks.rs lines 27-96).  The
source inserts up to five entries into a std HashMap, one per known
contract name present in the compiled input; the model records the
entries in insertion order (all keys are distinct).  The function
selector computation (a keccak-256 hash from the sha3 crate) is an
external primitive and is passed in as a function parameter. -/
def get_evm_benchmarks (selector : String → String)
    (compiled : List (String × CompiledContract)) : List (String × Benchmark) :=
  (match compiled.lookup "TenThousandHashes" with
   | some c => [("ten_thousand_hashes",
      { name := "ten_thousand_hashes",
        description := "Execute 10,000 keccak256 hash operations",
        category := "compute", bench_type := "evm",
        bytecode := c.bytecode, calldata := selector "Benchmark()", gas := 30000000 })]
   | none => []) ++
  (match compiled.lookup "SnailTracer" with
   | some c => [("snailtracer",
      { name := "snailtracer",
        description := "Ray tracing benchmark (compute intensive)",
        category := "compute", bench_type := "evm",
        bytecode := c.bytecode, calldata := "0x30627b7c", gas := 1000000000 })]
   | none => []) ++
  (match compiled.lookup "ERC20Transfer" with
   | some c => [("erc20_transfer_bench",
      { name := "erc20_transfer_bench",
        description := "Benchmark ERC20 transfer operations",
        category := "token", bench_type := "evm",
        bytecode := c.bytecode, calldata := selector "Benchmark()", gas := 30000000 })]
   | none => []) ++
  (match compiled.lookup "ERC20Mint" with
   | some c => [("erc20_mint_bench",
      { name := "erc20_mint_bench",
        description := "Benchmark ERC20 minting operations",
        category := "token", bench_type := "evm",
        bytecode := c.bytecode, calldata := selector "Benchmark()", gas := 30000000 })]
   | none => []) ++
  (match compiled.lookup "ERC20ApprovalTransfer" with
   | some c => [("erc20_approval_bench",
      { name := "erc20_approval_bench",
        description := "Benchmark ERC20 approval and transfer operations",
        category := "token", bench_type := "evm",
        bytecode := c.bytecode, calldata := selector "Benchmark()", gas := 30000000 })]
   | none => [])

/-- An enumeration of a std HashMap with the given entry list (keys
distinct) is any permutation of the entries: the iteration order of
std HashMap is unspecified and randomised per map instance. -/
def IsHashMapIteration {β : Type} (entries l : List (String × β)) : Prop :=
  l.Perm entries

/-! ## Timing-tool results (src/runner.rs, HyperfineRun and run_single_benchmark)

Timing statistics (f64 in the source) are modelled as rationals. -/

/-- Model of runner::BenchmarkResult. -/
structure BenchmarkResult where
  name : String
  evm : String
  mean : ℚ
  stddev : ℚ
  median : ℚ
  min : ℚ
  max : ℚ
  times : List ℚ
deriving DecidableEq, Repr

/-- Model of the serde view of one hyperfine result record
(runner::HyperfineRun): the stddev field carries serde(default), so a
missing value is represented as none before deserialization. -/
structure RawHyperfineRun where
  mean : ℚ
  stddev : Option ℚ
  median : ℚ
  min : ℚ
  max : ℚ
  times : List ℚ
deriving DecidableEq, Repr

/-- Model of runner::HyperfineResult (the whole JSON document). -/
structure HyperfineResult where
  results : List RawHyperfineRun
deriving DecidableEq, Repr

/-- Deserialized record: serde(default) replaces a missing stddev by 0.0. -/
def deserializeHyperfineRun (r : RawHyperfineRun) : RawHyperfineRun :=
  { r with stddev := some (r.stddev.getD 0) }

/-- Outcome of one hyperfine invocation, as observed by
run_single_benchmark: whether the subprocess could be spawned, whether
it exited successfully (and its code), whether the scratch JSON file
could be read, and the result of the serde parse of its content.
These are effects of the external tool; the fields are the exact
branch conditions the source inspects. -/
structure TimingToolOutcome where
  spawnOk : Bool
  exitSuccess : Bool
  exitCode : Option Int
  readOk : Bool
  parse : Except String HyperfineResult

/-- Debug-format of Option as printed by the Rust source for the exit
code. -/
def rustDebugOption : Option Int → String
  | none => "None"
  | some c => "Some(" ++ toString c ++ ")"

/-- Model of run_single_benchmark (src/runner.rs lines 144-214) after
the command construction: check the tool's exit status, read and parse
the JSON, take the first result record, and copy its statistics into a
BenchmarkResult.  No field of the record is validated.  The iteration
and warmup counts are only placed on the tool's command line (they
configure the external tool); the result handling never consults
them. -/
def run_single_benchmark (tool : TimingToolOutcome) (evm_name : String)
    (benchmark : Benchmark) (_iterations _warmup : Nat) : Except String BenchmarkResult :=
  if !tool.spawnOk then .error "Failed to run hyperfine"
  else if !tool.exitSuccess then
    .error ("Hyperfine failed with exit code: " ++ rustDebugOption tool.exitCode)
  else if !tool.readOk then .error "Failed to read hyperfine results"
  else
    match tool.parse with
    | .error _ => .error "Failed to parse hyperfine results"
    | .ok parsed =>
      match parsed.results with
      | [] => .error "No results from hyperfine"
      | raw :: _ =>
        let record := deserializeHyperfineRun raw
        .ok { name := benchmark.name, evm := evm_name, mean := record.mean,
              stddev := record.stddev.getD 0, median := record.median,
              min := record.min, max := record.max, times := record.times }

/-! ## Orchestration sweep (src/runner.rs, run_benchmarks lines 78-97)

The inner loops of run_benchmarks: for every benchmark, for every
selected backend, measure the pair with run_single_benchmark and
insert the result into the nested result map.  The question-mark
operator on the measurement propagates an error out of run_benchmarks
immediately.  The measurement of one pair is abstracted as a function
parameter (its possible outcomes are exactly the Except values of
run_single_benchmark). -/

/-- Inner backend loop of run_benchmarks: measures one benchmark
against every selected backend in order, propagating the first
error. -/
def sweepEvms (measure : String → String → Except String BenchmarkResult)
    (bench : String) : List String → Except String (List (String × BenchmarkResult))
  | [] => .ok []
  | e :: rest =>
    match measure bench e with
    | .error err => .error err
    | .ok r =>
      match sweepEvms measure bench rest with
      | .error err => .error err
      | .ok others => .ok ((e, r) :: others)

/-- Outer benchmark loop of run_benchmarks: the nested result map is
represented by its entries in insertion order. -/
def run_benchmarks_sweep (measure : String → String → Except String BenchmarkResult) :
    List String → List String →
    Except String (List (String × List (String × BenchmarkResult)))
  | [], _ => .ok []
  | b :: rest, evms =>
    match sweepEvms measure b evms with
    | .error err => .error err
    | .ok rs =>
      match run_benchmarks_sweep measure rest evms with
      | .error err => .error err
      | .ok others => .ok ((b, rs) :: others)

/-! ## Per-run executors (src/evm.rs, src/evms/revm.rs, src/evms/guillotine.rs) -/

/-- Model of revm ExecutionResult. -/
inductive TxExecutionResult where
  | Success (gas_used : Nat) (output : List Nat)
  | Revert (gas_used : Nat) (output : List Nat)
  | Halt (reason : String) (gas_used : Nat)
deriving DecidableEq, Repr

/-- State of the revm CacheDB as provisioned by this program: the two
accounts it creates plus the storage written by executions.  Storage
is keyed by (address, slot). -/
structure RState where
  contract_balance : Nat
  contract_nonce : Nat
  contract_code : List Nat
  caller_balance : Nat
  caller_nonce : Nat
  storage : List ((Nat × Nat) × Nat)
deriving DecidableEq, Repr

/-- Largest unsigned 256-bit value (U256::MAX). -/
def u256Max : Nat := 2 ^ 256 - 1

/-- One ether in wei, the caller funding used by the library executors. -/
def oneEth : Nat := 1000000000000000000

/-- Fresh database built by execute_revm (src/evm.rs lines 49-76 and
95-117): contract code deployed at the fixed contract address with
nonce 1, caller funded with U256::MAX, empty storage. -/
def revmFreshDb (bytecode : List Nat) : RState :=
  { contract_balance := 0, contract_nonce := 1, contract_code := bytecode,
    caller_balance := u256Max, caller_nonce := 0, storage := [] }

/-- Fresh database built by RevmExecutor::execute
(src/evms/revm.rs lines 31-58): same accounts, caller funded with one
ether. -/
def revmExecutorFreshDb (bytecode : List Nat) : RState :=
  { contract_balance := 0, contract_nonce := 1, contract_code := bytecode,
    caller_balance := oneEth, caller_nonce := 0, storage := [] }

/-- Error message of the revert arm of execute_revm. -/
def revmRevertMsg (gas : Nat) (output : List Nat) : String :=
  "EVM execution reverted - Gas: " ++ toString gas ++ ", Data: 0x" ++ hexEncode output

/-- Error message of the halt arm of execute_revm; the reason is the
Debug rendering of the halt reason. -/
def revmHaltMsg (reason : String) (gas : Nat) : String :=
  "EVM execution halted - Reason: " ++ reason ++ ", Gas: " ++ toString gas

/-- Error message of the transact error arm of execute_revm. -/
def revmErrorMsg (e : String) : String := "EVM execution error: " ++ e

/-- Internal loop of execute_revm (src/evm.rs lines 91-146).  The
transact_commit call of the external revm interpreter is the function
parameter: it consumes the current database and produces an execution
result and the mutated database.  The first iteration uses the
database built before the loop; every later iteration replaces the
database with a freshly provisioned one before transacting.  A
revert, halt or interpreter error aborts with the corresponding
message.  The second component of the value is the observation trace:
the database state handed to each transact_commit call, the
observable for the fresh-state invariant. -/
def execute_revm_loop (transact : RState → Except String (TxExecutionResult × RState))
    (fresh : RState) : Nat → Bool → RState → Except String Unit × List RState
  | 0, _, _ => (.ok (), [])
  | runs + 1, isFirst, db =>
    let pre := if isFirst then db else fresh
    match transact pre with
    | .error e => (.error (revmErrorMsg e), [pre])
    | .ok (.Success _ _, db2) =>
      let rec_ := execute_revm_loop transact fresh runs false db2
      (rec_.1, pre :: rec_.2)
    | .ok (.Revert g o, _) => (.error (revmRevertMsg g o), [pre])
    | .ok (.Halt r g, _) => (.error (revmHaltMsg r g), [pre])

/-- Model of execute_revm (src/evm.rs lines 38-149): strip the 0x
prefixes, hex-decode bytecode and calldata, build the fresh database
and run the internal loop.  The gas limit is placed in the
transaction environment consumed by the interpreter oracle; the
orchestration code never branches on it. -/
def execute_revm (transact : RState → Except String (TxExecutionResult × RState))
    (bytecode_hex calldata_hex : String) (_gas_limit internal_runs : Nat) :
    Except String Unit :=
  match hexDecode (strip0x bytecode_hex) with
  | .error e => .error e
  | .ok bytecode =>
    match hexDecode (strip0x calldata_hex) with
    | .error e => .error e
    | .ok _calldata =>
      (execute_revm_loop transact (revmFreshDb bytecode) internal_runs true
        (revmFreshDb bytecode)).1

/-- Model of evm::EvmResult as produced by the library executors. -/
structure EvmResultM where
  success : Bool
  gas_used : Nat
  output : List Nat
deriving DecidableEq, Repr

/-- Output bytes produced for a halt by RevmExecutor::execute. -/
def haltOutputBytes (reason : String) : List Nat :=
  ("Halted: " ++ reason).data.map Char.toNat

/-- Model of RevmExecutor::execute (src/evms/revm.rs lines 24-120):
one transact against a freshly provisioned database; Success maps to
an Ok sample with success true, Revert and Halt map to Ok samples
with success false carrying the partial gas and output, an
interpreter error maps to Err. -/
def RevmExecutor_execute (transact : RState → Except String (TxExecutionResult × RState))
    (bytecode _calldata : List Nat) (_gas_limit : Nat) : Except String EvmResultM :=
  match transact (revmExecutorFreshDb bytecode) with
  | .ok (.Success g o, _) => .ok { success := true, gas_used := g, output := o }
  | .ok (.Revert g o, _) => .ok { success := false, gas_used := g, output := o }
  | .ok (.Halt r g, _) => .ok { success := false, gas_used := g, output := haltOutputBytes r }
  | .error e => .error ("EVM execution error: " ++ e)

/-- State of one guillotine FFI Evm instance, restricted to the parts
this program reads or writes: the caller balance, the code at the
contract address, and the storage.  Storage is keyed by
(address, slot). -/
structure GState where
  caller_balance : Nat
  contract_code : List Nat
  storage : List ((Nat × Nat) × Nat)
deriving DecidableEq, Repr

/-- Model of the result of one guillotine transact. -/
structure GuillotineTxResult where
  success : Bool
  gas_used : Nat
  output : List Nat
deriving DecidableEq, Repr

/-- Model of Evm::set_balance on the caller
(src/evms/guillotine.rs line 34). -/
def guillotineSetBalance (s : GState) : GState := { s with caller_balance := oneEth }

/-- Model of Evm::set_code on the contract address
(src/evms/guillotine.rs line 37). -/
def guillotineSetCode (bytecode : List Nat) (s : GState) : GState :=
  { s with contract_code := bytecode }

/-- State observed by the transact of GuillotineExecutor::execute:
the incoming instance state with the caller balance and contract code
re-provisioned.  Nothing else (in particular not the storage) is
reset. -/
def guillotineProvision (bytecode : List Nat) (s : GState) : GState :=
  guillotineSetCode bytecode (guillotineSetBalance s)

/-- Error message of the non-success arm of execute_guillotine. -/
def guillotineFailMsg (gas : Nat) : String :=
  "Guillotine execution failed - Gas: " ++ toString gas

/-- Internal loop of execute_guillotine (src/evm.rs lines 205-213),
inlining GuillotineExecutor::execute on the single executor instance
created before the loop: each iteration re-provisions the caller
balance and the contract code on the same instance, transacts, and
bails if the result is not a success.  The second component is the
observation trace: the instance state handed to each transact. -/
def execute_guillotine_loop
    (transact : GState → Except String (GuillotineTxResult × GState))
    (bytecode : List Nat) : Nat → GState → Except String Unit × List GState
  | 0, _ => (.ok (), [])
  | runs + 1, s =>
    let pre := guillotineProvision bytecode s
    match transact pre with
    | .error e => (.error ("Failed to execute with Guillotine: " ++ e), [pre])
    | .ok (r, s2) =>
      if r.success then
        let rec_ := execute_guillotine_loop transact bytecode runs s2
        (rec_.1, pre :: rec_.2)
      else (.error (guillotineFailMsg r.gas_used), [pre])

/-- Model of execute_guillotine (src/evm.rs lines 187-216): strip the
0x prefixes and hex-decode with the contextualised error messages,
create one executor instance (newInstance models Evm::new, yielding
the instance's initial state), and run the loop on that single
instance. -/
def execute_guillotine (newInstance : Except String GState)
    (transact : GState → Except String (GuillotineTxResult × GState))
    (bytecode_hex calldata_hex : String) (_gas_limit internal_runs : Nat) :
    Except String Unit :=
  match hexDecode (strip0x bytecode_hex) with
  | .error _ => .error "Failed to decode bytecode hex"
  | .ok bytecode =>
    match hexDecode (strip0x calldata_hex) with
    | .error _ => .error "Failed to decode calldata hex"
    | .ok _calldata =>
      match newInstance with
      | .error _ => .error "Failed to create Guillotine executor"
      | .ok s0 => (execute_guillotine_loop transact bytecode internal_runs s0).1

/-- Model of execute_geth (src/evm.rs lines 151-154). -/
def execute_geth (_bytecode_hex _calldata_hex : String) (_gas_limit _internal_runs : Nat) :
    Except String Unit :=
  .error "Geth execution not yet implemented. Use FFI to call go-ethereum."

/-- Internal loop of execute_ethrex (src/evm.rs lines 174-182); the
executor state is abstract. -/
def execute_ethrex_loop {σ : Type} (execOnce : σ → Except String (Bool × σ)) :
    Nat → σ → Except String Unit
  | 0, _ => .ok ()
  | runs + 1, s =>
    match execOnce s with
    | .error e => .error ("Failed to execute with Ethrex: " ++ e)
    | .ok (success, s2) =>
      if success then execute_ethrex_loop execOnce runs s2
      else .error "Ethrex execution failed"

/-- Model of execute_ethrex (src/evm.rs lines 156-185). -/
def execute_ethrex {σ : Type} (newInstance : Except String σ)
    (execOnce : σ → Except String (Bool × σ))
    (bytecode_hex calldata_hex : String) (_gas_limit internal_runs : Nat) :
    Except String Unit :=
  match hexDecode (strip0x bytecode_hex) with
  | .error _ => .error "Failed to decode bytecode hex"
  | .ok _bytecode =>
    match hexDecode (strip0x calldata_hex) with
    | .error _ => .error "Failed to decode calldata hex"
    | .ok _calldata =>
      match newInstance with
      | .error _ => .error "Failed to create Ethrex executor"
      | .ok s0 => execute_ethrex_loop execOnce internal_runs s0

/-- Bundle of the backend effect oracles consumed by the dispatch. -/
structure BackendOracles (σ : Type) where
  revmTransact : RState → Except String (TxExecutionResult × RState)
  guillotineNew : Except String GState
  guillotineTransact : GState → Except String (GuillotineTxResult × GState)
  ethrexNew : Except String σ
  ethrexExecute : σ → Except String (Bool × σ)

/-- Model of execute_bytecode (src/evm.rs lines 28-36): dispatch on
the backend identifier string; an identifier outside the four known
ones is an explicit error naming it.  An Except error here becomes a
non-zero process exit of the execute subcommand. -/
def execute_bytecode {σ : Type} (or_ : BackendOracles σ)
    (evm_name bytecode calldata : String) (gas_limit internal_runs : Nat) :
    Except String Unit :=
  if evm_name = "revm" then
    execute_revm or_.revmTransact bytecode calldata gas_limit internal_runs
  else if evm_name = "geth" then
    execute_geth bytecode calldata gas_limit internal_runs
  else if evm_name = "guillotine" then
    execute_guillotine or_.guillotineNew or_.guillotineTransact bytecode calldata
      gas_limit internal_runs
  else if evm_name = "ethrex" then
    execute_ethrex or_.ethrexNew or_.ethrexExecute bytecode calldata gas_limit internal_runs
  else .error ("Unknown EVM implementation: " ++ evm_name)

/-! ## Relative-performance report (src/display.rs, show_results lines 54-83) -/

/-- Comparison used by the sort_by on the mean field. -/
def meanLe (a b : String × BenchmarkResult) : Bool := a.2.mean ≤ b.2.mean

/-- Model of the stable ascending sort of the (backend, result)
entries by mean. -/
def sortByMean (entries : List (String × BenchmarkResult)) :
    List (String × BenchmarkResult) :=
  entries.mergeSort meanLe

/-- Model of the Relative Performance section of show_results: shown
only when more than one backend was measured for the benchmark; the
entry whose name equals the fastest (first sorted) entry's name
prints the literal ratio 1.00, every other entry prints its mean
divided by the fastest mean.  The input list is one enumeration of
the per-benchmark result HashMap. -/
def relativePerformance (entries : List (String × BenchmarkResult)) :
    List (String × ℚ) :=
  if entries.length > 1 then
    match sortByMean entries with
    | [] => []
    | fastest :: rest =>
      (fastest :: rest).map fun er =>
        if er.1 = fastest.1 then (er.1, 1) else (er.1, er.2.mean / fastest.2.mean)
  else []

/-- Name of the entry reported as fastest (first of the sorted
entries), when any. -/
def fastestName (entries : List (String × BenchmarkResult)) : Option String :=
  (sortByMean entries).head?.map Prod.fst

/-! ## Concrete fixtures used by counterexamples and witnesses -/

/-- Backend oracles whose executions always succeed, used to
instantiate dispatch statements. -/
def trivialOracles : BackendOracles Unit :=
  { revmTransact := fun s => .ok (.Success 0 [], s),
    guillotineNew := .ok { caller_balance := 0, contract_code := [], storage := [] },
    guillotineTransact := fun s => .ok ({ success := true, gas_used := 0, output := [] }, s),
    ethrexNew := .ok (),
    ethrexExecute := fun s => .ok (true, s) }

/-- Concrete function-selector oracle (the keccak-based selector is an
external primitive of the sha3 crate). -/
def cexSelector : String → String := fun _ => "0x30627b7c"

/-- Concrete compiled input holding two of the five recognised
contract names. -/
def c4Compiled : List (String × CompiledContract) :=
  [("TenThousandHashes",
     { name := "TenThousandHashes", bytecode := "6001", path := "a.sol" }),
   ("SnailTracer",
     { name := "SnailTracer", bytecode := "6002", path := "b.sol" })]

/-- Catalog built from the concrete compiled input. -/
def c4Catalog : List (String × Benchmark) := get_evm_benchmarks cexSelector c4Compiled

/-- Concrete benchmark value used in timing counterexamples. -/
def cexBenchmark : Benchmark :=
  { name := "snailtracer", description := "Ray tracing benchmark (compute intensive)",
    category := "compute", bench_type := "evm", bytecode := "6001",
    calldata := "0x30627b7c", gas := 1000000000 }

/-- Hyperfine record violating every schema constraint of the spec:
empty sample list, min above max, median outside the range, missing
stddev. -/
def badRawRun : RawHyperfineRun :=
  { mean := 3, stddev := none, median := 7, min := 5, max := 1, times := [] }

/-- Timing-tool outcome delivering the malformed record. -/
def badToolOutcome : TimingToolOutcome :=
  { spawnOk := true, exitSuccess := true, exitCode := some 0, readOk := true,
    parse := .ok ⟨[badRawRun]⟩ }

/-! ## Claim C5 — deduplication of the comma-separated backend list -/

/-- Claim C5 counterexample: the input revm,revm,ethrex resolves to the
three-element list with the duplicate preserved, not to the
deduplicated two-element list the claim requires. -/
theorem determine_evms_no_dedup_cex :
    determine_evms none (some "revm,revm,ethrex") false false false =
      .ok ["revm", "revm", "ethrex"] ∧
    (["revm", "revm", "ethrex"] : List String) ≠ ["revm", "ethrex"] := by
  exact ⟨rfl, by decide⟩

/-- Claim C5 (amended): the comma-separated multi-backend selection is
split on commas and each field is trimmed, but no deduplication is
performed: revm,revm,ethrex resolves to [revm, revm, ethrex], and
whitespace around fields is removed. -/
theorem determine_evms_split_and_trim (p f : Bool) :
    determine_evms none (some "revm,revm,ethrex") false p f =
      .ok ["revm", "revm", "ethrex"] ∧
    determine_evms none (some " revm , ethrex ") false p f =
      .ok ["revm", "ethrex"] := by
  exact ⟨rfl, rfl⟩

/-! ## Claim C9 — default backend selection -/

/-- Claim C9: with no single-backend flag, no multi-backend list and
the all flag false, determine_evms resolves to exactly the
one-element list [revm], independently of the geth availability
probes. -/
theorem determine_evms_default_revm (p f : Bool) :
    determine_evms none none false p f = .ok ["revm"] := rfl

/-! ## Claim C10 — the all-available backend list -/

/-- Claim C10: the all-available list always contains revm and
guillotine with revm listed first, contains geth exactly when the evm
binary is on the PATH or the go-ethereum build artifact exists, and
contains no other identifier. -/
theorem determine_evms_all_available (p f : Bool) :
    ∃ l, determine_evms none none true p f = .ok l ∧
      "revm" ∈ l ∧ "guillotine" ∈ l ∧
      l.indexOf "revm" < l.indexOf "guillotine" ∧
      ("geth" ∈ l ↔ (p || f) = true) ∧
      ∀ x ∈ l, x = "revm" ∨ x = "geth" ∨ x = "guillotine" := by
  cases p <;> cases f
  · exact ⟨["revm", "guillotine"], rfl, by decide⟩
  · exact ⟨["revm", "geth", "guillotine"], rfl, by decide⟩
  · exact ⟨["revm", "geth", "guillotine"], rfl, by decide⟩
  · exact ⟨["revm", "geth", "guillotine"], rfl, by decide⟩

/-! ## Claim C6 — unknown backend identifiers -/

/-- Claim C6 counterexample: backend resolution does not fail on the
unknown identifier nonexistent; it returns it as a resolved target,
so no configuration error is raised before measurement.  The error
naming the identifier only arises when the measured subprocess
dispatches on it. -/
theorem determine_evms_unknown_cex :
    determine_evms (some "nonexistent") none false false false = .ok ["nonexistent"] ∧
    execute_bytecode trivialOracles "nonexistent" "6000" "" 30000000 1 =
      .error "Unknown EVM implementation: nonexistent" := by
  exact ⟨rfl, rfl⟩

/-- Claim C6 (amended): backend resolution passes an unknown
identifier through unvalidated; the failure naming the identifier is
raised by the per-run executor dispatch during measurement (a
non-zero exit of the timed subprocess), and the dispatch never falls
back to a default backend. -/
theorem unknown_backend_errors_at_dispatch {σ : Type} (or_ : BackendOracles σ)
    (name bytecode calldata : String) (gas internal_runs : Nat) (p f : Bool)
    (h1 : name ≠ "revm") (h2 : name ≠ "geth") (h3 : name ≠ "guillotine")
    (h4 : name ≠ "ethrex") :
    determine_evms (some name) none false p f = .ok [name] ∧
    execute_bytecode or_ name bytecode calldata gas internal_runs =
      .error ("Unknown EVM implementation: " ++ name) := by
  refine ⟨rfl, ?_⟩
  simp [execute_bytecode, h1, h2, h3, h4]

/-- Claim C6 (amended) witness at the identifier nonexistent. -/
theorem unknown_backend_errors_at_dispatch_witness :
    determine_evms (some "nonexistent") none false true true = .ok ["nonexistent"] ∧
    execute_bytecode trivialOracles "nonexistent" "" "" 0 0 =
      .error ("Unknown EVM implementation: " ++ "nonexistent") :=
  unknown_backend_errors_at_dispatch trivialOracles "nonexistent" "" "" 0 0 true true
    (by decide) (by decide) (by decide) (by decide)

/-! ## Claim C4 — stability of the catalog enumeration order -/

/-- Claim C4 counterexample: the catalog is a std HashMap, whose
enumeration order is unspecified and randomised per map instance;
both the insertion order and its reverse are possible enumerations of
the same two-entry catalog, and they differ, so the enumeration order
is not a stable function of the compiled input. -/
theorem catalog_enumeration_order_cex :
    ¬ (∀ l1 l2, IsHashMapIteration c4Catalog l1 → IsHashMapIteration c4Catalog l2 →
        l1 = l2) := by
  intro h
  have heq := h c4Catalog c4Catalog.reverse (List.Perm.refl _) (List.reverse_perm _)
  exact absurd heq (by decide)

/-- Claim C4 (amended): building the catalog is a deterministic
function of the compiled-workload input, so any two enumerations of
catalogs built from the same input agree up to permutation (same
entries, same multiplicities); the enumeration order itself is
unspecified. -/
theorem catalog_enumerations_agree_as_multisets (selector : String → String)
    (compiled : List (String × CompiledContract))
    (l1 l2 : List (String × Benchmark))
    (h1 : IsHashMapIteration (get_evm_benchmarks selector compiled) l1)
    (h2 : IsHashMapIteration (get_evm_benchmarks selector compiled) l2) :
    l1.Perm l2 :=
  h1.trans h2.symm

/-- Claim C4 (amended) witness on the concrete two-entry catalog. -/
theorem catalog_enumerations_agree_as_multisets_witness :
    (c4Catalog.reverse).Perm c4Catalog :=
  catalog_enumerations_agree_as_multisets cexSelector c4Compiled _ _
    (List.reverse_perm _) (List.Perm.refl _)

/-! ## Claim C3 — validation of the timing-tool record -/

/-- Claim C3 counterexample: a parsed record with an empty sample
list (thus of length different from the ten requested iterations),
min above max and median outside the min-max range is accepted as a
successful BenchmarkResult, and its missing stddev is silently
coerced to zero; no TimingToolError is raised. -/
theorem timing_validation_cex :
    run_single_benchmark badToolOutcome "revm" cexBenchmark 10 3 =
      .ok { name := "snailtracer", evm := "revm", mean := 3, stddev := 0,
            median := 7, min := 5, max := 1, times := [] } ∧
    ¬ ((5 : ℚ) ≤ 1) ∧ ¬ ((5 : ℚ) ≤ 7 ∧ (7 : ℚ) ≤ 1) ∧
    ([] : List ℚ).length ≠ 10 := by
  refine ⟨rfl, by norm_num, by norm_num, by decide⟩

/-- Claim C3 (amended): run_single_benchmark performs no schema
validation: whenever the timing tool exits successfully and its JSON
parses, the first result record is accepted verbatim — regardless of
the sample count or of the ordering of min, mean, median and max —
with a missing stddev silently defaulted to zero; the only
record-level rejection is an empty results array. -/
theorem run_single_benchmark_no_validation (evm_name : String) (benchmark : Benchmark)
    (iterations warmup : Nat) (exitCode : Option Int)
    (raw : RawHyperfineRun) (rest : List RawHyperfineRun) :
    run_single_benchmark ⟨true, true, exitCode, true, .ok ⟨raw :: rest⟩⟩
        evm_name benchmark iterations warmup =
      .ok { name := benchmark.name, evm := evm_name, mean := raw.mean,
            stddev := raw.stddev.getD 0, median := raw.median, min := raw.min,
            max := raw.max, times := raw.times } ∧
    run_single_benchmark ⟨true, true, exitCode, true, .ok ⟨[]⟩⟩
        evm_name benchmark iterations warmup =
      .error "No results from hyperfine" := by
  exact ⟨rfl, rfl⟩

/-! ## Claim C1 — partial-failure policy of the sweep -/

/-- Concrete sample result used by the sweep fixtures. -/
def sampleResult : BenchmarkResult :=
  { name := "b2", evm := "revm", mean := 1, stddev := 0, median := 1,
    min := 1, max := 1, times := [1, 1] }

/-- Concrete measurement oracle: the pair (b1, revm) fails the way a
non-zero hyperfine exit fails, every other pair succeeds. -/
def failingMeasure : String → String → Except String BenchmarkResult :=
  fun b _ =>
    if b = "b1" then .error "Hyperfine failed with exit code: Some(1)"
    else .ok sampleResult

/-- Helper: if some backend of the inner loop fails, the inner loop
yields an error. -/
theorem sweepEvms_error_of_fail
    (m : String → String → Except String BenchmarkResult) (b e : String)
    (err : String) (hfail : m b e = .error err) :
    ∀ es : List String, e ∈ es → ∃ err', sweepEvms m b es = .error err' := by
  intro es
  induction es with
  | nil => intro he; exact absurd he (List.not_mem_nil e)
  | cons x xs ih =>
    intro he
    rcases hx : m b x with errx | rx
    · exact ⟨errx, by simp [sweepEvms, hx]⟩
    · rcases List.mem_cons.mp he with heq | hmem
      · rw [← heq, hfail] at hx; exact absurd hx (by simp)
      · rcases ih hmem with ⟨err', hrec⟩
        exact ⟨err', by simp [sweepEvms, hx, hrec]⟩

/-- Helper: a successful inner loop records every backend. -/
theorem sweepEvms_ok_mem
    (m : String → String → Except String BenchmarkResult) (b : String) :
    ∀ (es : List String) (rs : List (String × BenchmarkResult)),
      sweepEvms m b es = .ok rs → ∀ e ∈ es, ∃ r, m b e = .ok r ∧ (e, r) ∈ rs := by
  intro es
  induction es with
  | nil => intro rs _ e he; exact absurd he (List.not_mem_nil e)
  | cons x xs ih =>
    intro rs hok e he
    rcases hx : m b x with errx | rx
    · rw [sweepEvms, hx] at hok; exact absurd hok (by simp)
    · rw [sweepEvms, hx] at hok
      rcases hrec : sweepEvms m b xs with errr | others
      · rw [hrec] at hok; exact absurd hok (by simp)
      · rw [hrec] at hok
        have hrs : rs = (x, rx) :: others := by
          have := hok; simp at this; exact this.symm
        rcases List.mem_cons.mp he with heq | hmem
        · exact ⟨rx, by rw [heq]; exact hx, by rw [hrs, heq]; exact List.mem_cons_self _ _⟩
        · rcases ih others hrec e hmem with ⟨r, hr1, hr2⟩
          exact ⟨r, hr1, by rw [hrs]; exact List.mem_cons_of_mem _ hr2⟩

/-- Claim C1 counterexample: with the pair (b1, revm) failing and the
pair (b2, revm) measurable, the sweep returns the error of the first
pair: no result set is produced at all, so the failing pair is not
recorded against the sweep's results, and the remaining pair (b2,
revm) is not measured into any result either — the opposite of
record-and-continue. -/
theorem run_benchmarks_abort_cex :
    run_benchmarks_sweep failingMeasure ["b1", "b2"] ["revm"] =
      .error "Hyperfine failed with exit code: Some(1)" := by
  rfl

/-- Claim C1 (amended): the question-mark on the per-pair measurement
propagates the first failure out of run_benchmarks: whenever any
requested (benchmark, backend) pair fails, the whole sweep evaluates
to an error and produces no result set — neither the failed pair nor
any other pair is recorded. -/
theorem run_benchmarks_sweep_aborts
    (m : String → String → Except String BenchmarkResult)
    (bs es : List String) (b e : String) (err : String)
    (hb : b ∈ bs) (he : e ∈ es) (hfail : m b e = .error err) :
    (∃ err', run_benchmarks_sweep m bs es = .error err') ∧
    (∀ l, run_benchmarks_sweep m bs es ≠ .ok l) := by
  have main : ∃ err', run_benchmarks_sweep m bs es = .error err' := by
    induction bs with
    | nil => exact absurd hb (List.not_mem_nil b)
    | cons x xs ih =>
      rcases hsx : sweepEvms m x es with errx | rsx
      · exact ⟨errx, by simp [run_benchmarks_sweep, hsx]⟩
      · rcases List.mem_cons.mp hb with heq | hmem
        · subst heq
          rcases sweepEvms_error_of_fail m b e err hfail es he with ⟨err', hse⟩
          rw [hse] at hsx
          exact absurd hsx (by simp)
        · rcases ih hmem with ⟨err', hrec⟩
          exact ⟨err', by simp [run_benchmarks_sweep, hsx, hrec]⟩
  refine ⟨main, fun l hl => ?_⟩
  rcases main with ⟨err', herr⟩
  rw [herr] at hl
  exact absurd hl (by simp)

/-- Claim C1 (amended) witness on the concrete failing sweep. -/
theorem run_benchmarks_sweep_aborts_witness :
    (∃ err', run_benchmarks_sweep failingMeasure ["b1", "b2"] ["revm"] = .error err') ∧
    (∀ l, run_benchmarks_sweep failingMeasure ["b1", "b2"] ["revm"] ≠ .ok l) :=
  run_benchmarks_sweep_aborts failingMeasure ["b1", "b2"] ["revm"] "b1" "revm"
    "Hyperfine failed with exit code: Some(1)" (by decide) (by decide) rfl

/-! ## Claim C2 — business failures versus infrastructure failures -/

/-- Concrete interpreter oracle that reverts with gas 100 and empty
return data. -/
def revertTransact : RState → Except String (TxExecutionResult × RState) :=
  fun s => .ok (.Revert 100 [], s)

/-- Claim C2 counterexample: in the timed execute path, a
business-level revert is not reported as a normal sample — it becomes
an error (hence a non-zero exit of the execute subcommand), carrying
the revert message. -/
theorem revert_is_error_in_timed_path_cex :
    execute_revm revertTransact "6000" "" 30000000 1 =
      .error "EVM execution reverted - Gas: 100, Data: 0x" := by
  rfl

/-- Claim C2 (amended): the timed execute path (execute_revm, run
under the timing tool) turns a business-level revert or halt, as well
as an interpreter error, into an error — a non-zero exit — so only a
fully successful outcome yields exit code 0 there; it is the library
API RevmExecutor::execute that reports revert and halt as normal Ok
samples with success false carrying the backend's partial gas and
output, reserving errors for infrastructure failures. -/
theorem business_failure_classification
    (t : RState → Except String (TxExecutionResult × RState))
    (bhex chex : String) (bs cs : List Nat) (gl n : Nat)
    (g : Nat) (o : List Nat) (reason : String) (s1 s2 : RState) (e : String)
    (hb : hexDecode (strip0x bhex) = .ok bs)
    (hc : hexDecode (strip0x chex) = .ok cs) :
    (t (revmFreshDb bs) = .ok (.Revert g o, s1) →
      execute_revm t bhex chex gl (n + 1) = .error (revmRevertMsg g o)) ∧
    (t (revmFreshDb bs) = .ok (.Halt reason g, s1) →
      execute_revm t bhex chex gl (n + 1) = .error (revmHaltMsg reason g)) ∧
    (t (revmFreshDb bs) = .error e →
      execute_revm t bhex chex gl (n + 1) = .error (revmErrorMsg e)) ∧
    (t (revmExecutorFreshDb bs) = .ok (.Revert g o, s2) →
      RevmExecutor_execute t bs cs gl =
        .ok { success := false, gas_used := g, output := o }) ∧
    (t (revmExecutorFreshDb bs) = .ok (.Halt reason g, s2) →
      RevmExecutor_execute t bs cs gl =
        .ok { success := false, gas_used := g, output := haltOutputBytes reason }) ∧
    (t (revmExecutorFreshDb bs) = .error e →
      RevmExecutor_execute t bs cs gl = .error ("EVM execution error: " ++ e)) := by
  refine ⟨?_, ?_, ?_, ?_, ?_, ?_⟩ <;> intro h <;>
    simp [execute_revm, hb, hc, execute_revm_loop, RevmExecutor_execute, h]

/-- Claim C2 (amended) witness at the concrete reverting oracle. -/
theorem business_failure_classification_witness :
    (revertTransact (revmFreshDb [96, 0]) = .ok (.Revert 100 [], revmFreshDb [96, 0]) →
      execute_revm revertTransact "6000" "" 30000000 (0 + 1) =
        .error (revmRevertMsg 100 [])) ∧
    (revertTransact (revmFreshDb [96, 0]) = .ok (.Halt "OutOfGas" 100, revmFreshDb [96, 0]) →
      execute_revm revertTransact "6000" "" 30000000 (0 + 1) =
        .error (revmHaltMsg "OutOfGas" 100)) ∧
    (revertTransact (revmFreshDb [96, 0]) = .error "boom" →
      execute_revm revertTransact "6000" "" 30000000 (0 + 1) =
        .error (revmErrorMsg "boom")) ∧
    (revertTransact (revmExecutorFreshDb [96, 0]) =
        .ok (.Revert 100 [], revmExecutorFreshDb [96, 0]) →
      RevmExecutor_execute revertTransact [96, 0] [] 30000000 =
        .ok { success := false, gas_used := 100, output := [] }) ∧
    (revertTransact (revmExecutorFreshDb [96, 0]) =
        .ok (.Halt "OutOfGas" 100, revmExecutorFreshDb [96, 0]) →
      RevmExecutor_execute revertTransact [96, 0] [] 30000000 =
        .ok { success := false, gas_used := 100, output := haltOutputBytes "OutOfGas" }) ∧
    (revertTransact (revmExecutorFreshDb [96, 0]) = .error "boom" →
      RevmExecutor_execute revertTransact [96, 0] [] 30000000 =
        .error ("EVM execution error: " ++ "boom")) :=
  business_failure_classification revertTransact "6000" "" [96, 0] [] 30000000 0
    100 [] "OutOfGas" (revmFreshDb [96, 0]) (revmExecutorFreshDb [96, 0]) "boom"
    rfl rfl

/-! ## Claim C8 — fresh, isolated state per run -/

/-- Concrete guillotine interpreter oracle that writes storage slot 0
of address 0 and reports success. -/
def gWriteTransact : GState → Except String (GuillotineTxResult × GState) :=
  fun s => .ok ({ success := true, gas_used := 21000, output := [] },
                { s with storage := [((0, 0), 7)] })

/-- Initial state of a freshly created guillotine Evm instance. -/
def gFreshInstance : GState :=
  { caller_balance := 0, contract_code := [], storage := [] }

/-- Instance state after the storage-writing run, starting from the
fresh instance. -/
def gPost : GState :=
  { caller_balance := oneEth, contract_code := [96, 0], storage := [((0, 0), 7)] }

/-- Claim C8 counterexample: with the single guillotine executor
instance reused for two internal runs, the second transact observes
the storage written by the first run — the backend state is not
discarded after a run and the second run does not start from fresh
state. -/
theorem guillotine_observes_prior_state_cex :
    (execute_guillotine_loop gWriteTransact [96, 0] 2 gFreshInstance).2 =
      [{ caller_balance := oneEth, contract_code := [96, 0], storage := [] },
       { caller_balance := oneEth, contract_code := [96, 0], storage := [((0, 0), 7)] }] ∧
    ({ caller_balance := oneEth, contract_code := [96, 0],
       storage := [((0, 0), 7)] } : GState) ≠
      { caller_balance := oneEth, contract_code := [96, 0], storage := [] } := by
  exact ⟨rfl, by decide⟩

/-- Helper: every database observed by the execute_revm loop equals
the fresh database, provided the loop's incoming database is fresh on
the first iteration. -/
theorem execute_revm_loop_pre_fresh
    (t : RState → Except String (TxExecutionResult × RState)) (fresh : RState) :
    ∀ (n : Nat) (b : Bool) (db : RState), (b = true → db = fresh) →
      ∀ pre ∈ (execute_revm_loop t fresh n b db).2, pre = fresh := by
  intro n
  induction n with
  | zero => intro b db _ pre hpre; simp [execute_revm_loop] at hpre
  | succ k ih =>
    intro b db hdb pre hpre
    have hpre0 : (if b then db else fresh) = fresh := by
      cases b
      · simp
      · simpa using hdb rfl
    rw [execute_revm_loop] at hpre
    rcases ht : t (if b then db else fresh) with e | p
    · rw [ht] at hpre
      simp at hpre
      rw [hpre]
      exact hpre0
    · rcases p with ⟨res, db2⟩
      rcases res with ⟨g, o⟩ | ⟨g, o⟩ | ⟨r, g⟩
      · rw [ht] at hpre
        simp at hpre
        rcases hpre with heq | hmem
        · rw [heq]; exact hpre0
        · exact ih false db2 (by simp) pre hmem
      · rw [ht] at hpre
        simp at hpre
        rw [hpre]
        exact hpre0
      · rw [ht] at hpre
        simp at hpre
        rw [hpre]
        exact hpre0

/-- Claim C8 (amended): the revm timed path re-provisions a fresh
database for every internal run, so every transact observes exactly
the freshly provisioned state (contract code deployed at the fixed
address, caller funded, empty storage); the guillotine timed path
instead reuses one executor instance across internal runs,
re-provisioning only the caller balance and the contract code, so the
state observed by the next run is the provisioning of the previous
run's post-state — in particular its storage is exactly the storage
left by the previous run. -/
theorem fresh_state_per_run_amended
    (t : RState → Except String (TxExecutionResult × RState))
    (gt : GState → Except String (GuillotineTxResult × GState))
    (bytecode : List Nat) (n : Nat) (s : GState)
    (r : GuillotineTxResult) (s2 : GState)
    (hg : gt (guillotineProvision bytecode s) = .ok (r, s2))
    (hs : r.success = true) :
    (∀ pre ∈ (execute_revm_loop t (revmFreshDb bytecode) n true (revmFreshDb bytecode)).2,
       pre = revmFreshDb bytecode) ∧
    (execute_guillotine_loop gt bytecode (n + 1) s).2 =
      guillotineProvision bytecode s :: (execute_guillotine_loop gt bytecode n s2).2 ∧
    (guillotineProvision bytecode s2).storage = s2.storage := by
  refine ⟨execute_revm_loop_pre_fresh t (revmFreshDb bytecode) n true _ (fun _ => rfl),
    ?_, rfl⟩
  rw [execute_guillotine_loop, hg]
  simp [hs]

/-- Claim C8 (amended) witness on the storage-writing guillotine
oracle and an always-succeeding revm oracle. -/
theorem fresh_state_per_run_amended_witness :
    (∀ pre ∈ (execute_revm_loop (fun s => .ok (.Success 0 [], s)) (revmFreshDb [96, 0]) 1
        true (revmFreshDb [96, 0])).2, pre = revmFreshDb [96, 0]) ∧
    (execute_guillotine_loop gWriteTransact [96, 0] (1 + 1) gFreshInstance).2 =
      guillotineProvision [96, 0] gFreshInstance ::
        (execute_guillotine_loop gWriteTransact [96, 0] 1 gPost).2 ∧
    (guillotineProvision [96, 0] gPost).storage = gPost.storage :=
  fresh_state_per_run_amended (fun s => .ok (.Success 0 [], s)) gWriteTransact [96, 0] 1
    gFreshInstance { success := true, gas_used := 21000, output := [] } gPost rfl rfl

/-! ## Claim C7 — fastest backend and relative ratios -/

/-- Helper: transitivity of the mean comparison. -/
theorem meanLe_trans (a b c : String × BenchmarkResult)
    (h1 : meanLe a b = true) (h2 : meanLe b c = true) : meanLe a c = true := by
  simp only [meanLe, decide_eq_true_eq] at h1 h2 ⊢
  exact le_trans h1 h2

/-- Helper: totality of the mean comparison. -/
theorem meanLe_total (a b : String × BenchmarkResult) :
    (meanLe a b || meanLe b a) = true := by
  simp only [meanLe, Bool.or_eq_true, decide_eq_true_eq]
  exact le_total _ _

/-- Claim C7: for a benchmark with at least two measured backends
(with distinct names, as HashMap keys are, and positive means), the
backend reported fastest has the minimum mean among the measured
entries, the relative-performance section reports ratio 1.00 for it,
and it reports for every backend the ratio mean(B) / mean(fastest). -/
theorem relative_performance_report (entries : List (String × BenchmarkResult))
    (h2 : 2 ≤ entries.length)
    (hnodup : (entries.map Prod.fst).Nodup)
    (hpos : ∀ x ∈ entries, 0 < x.2.mean) :
    ∃ f ∈ entries,
      (∀ x ∈ entries, f.2.mean ≤ x.2.mean) ∧
      fastestName entries = some f.1 ∧
      (f.1, (1 : ℚ)) ∈ relativePerformance entries ∧
      (∀ x ∈ entries, (x.1, x.2.mean / f.2.mean) ∈ relativePerformance entries) := by
  have hperm : (sortByMean entries).Perm entries := List.mergeSort_perm entries meanLe
  obtain ⟨f, rest, hsort⟩ : ∃ f rest, sortByMean entries = f :: rest := by
    cases hs : sortByMean entries with
    | nil =>
      exfalso
      have hl := hperm.length_eq
      rw [hs] at hl
      simp at hl
      omega
    | cons f rest => exact ⟨f, rest, rfl⟩
  have hfmem : f ∈ entries := hperm.mem_iff.mp (by rw [hsort]; exact List.mem_cons_self _ _)
  have hsorted : List.Pairwise (fun a b => meanLe a b = true) (sortByMean entries) :=
    List.sorted_mergeSort meanLe_trans meanLe_total entries
  rw [hsort] at hsorted
  have hmin : ∀ x ∈ entries, f.2.mean ≤ x.2.mean := by
    intro x hx
    have hxs : x ∈ f :: rest := by rw [← hsort]; exact hperm.mem_iff.mpr hx
    rcases List.mem_cons.mp hxs with heq | hmem
    · rw [heq]
    · have hle := (List.pairwise_cons.mp hsorted).1 x hmem
      simpa only [meanLe, decide_eq_true_eq] using hle
  have hgt : entries.length > 1 := h2
  have hrep : relativePerformance entries =
      (f :: rest).map (fun er =>
        if er.1 = f.1 then (er.1, (1 : ℚ)) else (er.1, er.2.mean / f.2.mean)) := by
    unfold relativePerformance
    rw [if_pos hgt, hsort]
  have hnodup' : f.1 ∉ rest.map Prod.fst := by
    have hp : ((f :: rest).map Prod.fst).Perm (entries.map Prod.fst) := by
      rw [← hsort]; exact hperm.map _
    have hnd : ((f :: rest).map Prod.fst).Nodup := hp.nodup_iff.mpr hnodup
    rw [List.map_cons] at hnd
    exact (List.nodup_cons.mp hnd).1
  refine ⟨f, hfmem, hmin, ?_, ?_, ?_⟩
  · unfold fastestName
    rw [hsort]
    rfl
  · rw [hrep]
    simp
  · intro x hx
    have hxs : x ∈ f :: rest := by rw [← hsort]; exact hperm.mem_iff.mpr hx
    rcases List.mem_cons.mp hxs with heq | hmem
    · have hne : f.2.mean ≠ 0 := ne_of_gt (hpos f hfmem)
      rw [heq, div_self hne, hrep]
      simp
    · have hnef : x.1 ≠ f.1 := by
        intro hcontra
        exact hnodup' (hcontra ▸ List.mem_map_of_mem Prod.fst hmem)
      rw [hrep]
      have himg := List.mem_map_of_mem
        (fun er => if er.1 = f.1 then (er.1, (1 : ℚ)) else (er.1, er.2.mean / f.2.mean))
        (List.mem_cons_of_mem f hmem)
      simpa [hnef] using himg

/-- Concrete two-backend result set used by the report witness. -/
def c7Entries : List (String × BenchmarkResult) :=
  [("revm", { name := "snailtracer", evm := "revm", mean := 2, stddev := 0,
              median := 2, min := 2, max := 2, times := [2, 2] }),
   ("guillotine", { name := "snailtracer", evm := "guillotine", mean := 1, stddev := 0,
                    median := 1, min := 1, max := 1, times := [1, 1] })]

/-- Claim C7 witness on the concrete two-backend result set. -/
theorem relative_performance_report_witness :
    ∃ f ∈ c7Entries,
      (∀ x ∈ c7Entries, f.2.mean ≤ x.2.mean) ∧
      fastestName c7Entries = some f.1 ∧
      (f.1, (1 : ℚ)) ∈ relativePerformance c7Entries ∧
      (∀ x ∈ c7Entries, (x.1, x.2.mean / f.2.mean) ∈ relativePerformance c7Entries) :=
  relative_performance_report c7Entries (by decide) (by decide) (by decide)

/-! ## Instantiations of the parameterised claim theorems -/

/-- Claim C5 (amended) witness at both availability probes true. -/
theorem determine_evms_split_and_trim_witness :
    determine_evms none (some "revm,revm,ethrex") false true true =
      .ok ["revm", "revm", "ethrex"] ∧
    determine_evms none (some " revm , ethrex ") false true true =
      .ok ["revm", "ethrex"] :=
  determine_evms_split_and_trim true true

/-- Claim C9 witness at both availability probes true. -/
theorem determine_evms_default_revm_witness :
    determine_evms none none false true true = .ok ["revm"] :=
  determine_evms_default_revm true true

/-- Claim C10 witness with the evm binary on the PATH and no build
artifact. -/
theorem determine_evms_all_available_witness :
    ∃ l, determine_evms none none true true false = .ok l ∧
      "revm" ∈ l ∧ "guillotine" ∈ l ∧
      l.indexOf "revm" < l.indexOf "guillotine" ∧
      ("geth" ∈ l ↔ (true || false) = true) ∧
      ∀ x ∈ l, x = "revm" ∨ x = "geth" ∨ x = "guillotine" :=
  determine_evms_all_available true false

/-- Claim C3 (amended) witness at a concrete well-formed record and
the empty record list. -/
theorem run_single_benchmark_no_validation_witness :
    run_single_benchmark ⟨true, true, some 0, true,
        .ok ⟨[{ mean := 2, stddev := some 1, median := 2, min := 1, max := 3,
                times := [1, 3] }]⟩⟩ "revm" cexBenchmark 2 1 =
      .ok { name := cexBenchmark.name, evm := "revm", mean := 2,
            stddev := (some (1 : ℚ)).getD 0, median := 2, min := 1, max := 3,
            times := [1, 3] } ∧
    run_single_benchmark ⟨true, true, some 0, true, .ok ⟨[]⟩⟩ "revm" cexBenchmark 2 1 =
      .error "No results from hyperfine" :=
  run_single_benchmark_no_validation "revm" cexBenchmark 2 1 (some 0)
    { mean := 2, stddev := some 1, median := 2, min := 1, max := 3, times := [1, 3] } []

end EvmBench
